import Mathlib

/-!
Shallow embedding of the `openai-cli` repository (two near-duplicate Python
source files, `src/openai-cli.py` and `src/openai_cli.py`) and proofs about
its documented behaviour.

The embedding models:
* the `Conversation` class (message history, streaming and non-streaming
  `ask`, model defaulting in `__init__`);
* the streaming generator of `Conversation.ask` as a trace of atomic
  operations (`yieldFrag` for each `yield chunk_message`, one final
  `appendPair` for `self.messages.extend([message, response_message])`), so
  that mid-stream failure or abandonment is executing a prefix of the trace;
* the per-iteration input dispatch of the `main` loop of each file;
* the colour state machine rendering fragments in the `main` of `openai_cli.py`;
* `open_editor_with_content` in `openai_cli.py` as a result plus a trace of
  filesystem/subprocess events;
* the module-level name bindings of `src/openai-cli.py`, to settle the
  `openai.api_base` NameError on the proxy path.
-/

namespace OpenAICLI

/-- Message roles appearing in the program: `user` and `assistant`. -/
inductive Role where
  | user
  | assistant
deriving DecidableEq, Repr

/-- A chat message dict with a `role` field and a `content` field. -/
structure Message where
  role : Role
  content : String
deriving DecidableEq, Repr

/-- State of a `Conversation` object: `self.messages`, `self.stream`,
`self.model` (the `OpenAI()` client field carries no modelled state). -/
structure Conversation where
  messages : List Message
  stream : Bool
  model : String
deriving DecidableEq, Repr

/-- The constructor `Conversation.__init__(self, stream=True, model=...)`
whose `model` parameter defaults to the empty string:
`self.messages = []`, `self.stream = stream`, and `self.model` is
`gpt-4o` if `model` is falsy, else `model` itself (identical in both
files; a string is falsy exactly when it is empty). -/
def Conversation.init (stream : Bool) (model : String) : Conversation :=
  { messages := [], stream := stream,
    model := if model = "" then "gpt-4o" else model }

/-- The dict `message` built at the top of `ask`: role `user`, the given content. -/
def userMessage (content : String) : Message :=
  { role := Role.user, content := content }

/-- `messages = self.messages + [message]`: the request payload built by
`ask`, a fresh list that leaves `self.messages` untouched. -/
def Conversation.requestMessages (c : Conversation) (content : String) :
    List Message :=
  c.messages ++ [userMessage content]

/-- Arguments of `self.client.chat.completions.create(...)` in `ask`. -/
structure Request where
  messages : List Message
  stream : Bool
  model : String
deriving DecidableEq, Repr

/-- The request `ask` sends: `messages = self.messages + [message]`,
`stream = self.stream`, `model = self.model`. -/
def Conversation.buildRequest (c : Conversation) (content : String) : Request :=
  { messages := c.requestMessages content, stream := c.stream,
    model := c.model }

/-- Joining `collected_messages` with the empty separator, as `join` does. -/
def joinFrags : List String → String
  | [] => ""
  | s :: rest => s ++ joinFrags rest

/-- An atomic observable operation of the streaming branch of `ask`:
either `yield chunk_message` or the final
`self.messages.extend([message, response_message])`. -/
inductive AskOp where
  | yieldFrag (s : String)
  | appendPair (user assistant : Message)
deriving DecidableEq, Repr

/-- Trace of a streaming `ask` exchange that runs to completion.
`events` models the chunk sequence, each entry being
`chunk.choices[0].delta.content` (`none` for a `None` delta);
`collected` models the `collected_messages` accumulator.
For each chunk with a non-`None` delta the generator appends it to
`collected_messages` and yields it; after the loop it extends
`self.messages` with the user message and the assistant message whose
content is the join of `collected_messages` with the empty separator. -/
def streamOps (user : Message) (collected : List String) :
    List (Option String) → List AskOp
  | [] =>
      [AskOp.appendPair user
        { role := Role.assistant, content := joinFrags collected }]
  | none :: rest => streamOps user collected rest
  | some s :: rest => AskOp.yieldFrag s :: streamOps user (collected ++ [s]) rest

/-- Trace of a streaming `ask` exchange whose chunk iterator fails (or is
abandoned by the caller) after delivering `received`: exactly the yields of
the delivered chunks; the `extend` after the loop is never reached. -/
def streamOpsFailed : List (Option String) → List AskOp
  | [] => []
  | none :: rest => streamOpsFailed rest
  | some s :: rest => AskOp.yieldFrag s :: streamOpsFailed rest

/-- Execute a list of operations against the stored history `msgs`,
collecting the fragments yielded to the caller. Only `appendPair` mutates
the stored history. -/
def runOps (msgs : List Message) (ys : List String) :
    List AskOp → List Message × List String
  | [] => (msgs, ys)
  | AskOp.yieldFrag s :: rest => runOps msgs (ys ++ [s]) rest
  | AskOp.appendPair u a :: rest => runOps (msgs ++ [u, a]) ys rest

/-- A completed streaming `ask(content)` exchange over chunk deltas
`events`: returns the conversation afterwards and the fragments yielded to
the caller, by executing the full operation trace of the generator. -/
def Conversation.askStream (c : Conversation) (content : String)
    (events : List (Option String)) : Conversation × List String :=
  ({ c with messages :=
      (runOps c.messages [] (streamOps (userMessage content) [] events)).1 },
   (runOps c.messages [] (streamOps (userMessage content) [] events)).2)

/-- A streaming `ask(content)` exchange that fails mid-stream (or whose
generator is abandoned) after the deltas `received` were delivered:
executes only the operations that actually happened — the yields of the
delivered chunks, never the `extend` (the user message built from `content`
is therefore never stored). -/
def Conversation.askStreamFailed (c : Conversation) (_content : String)
    (received : List (Option String)) : Conversation × List String :=
  ({ c with messages := (runOps c.messages [] (streamOpsFailed received)).1 },
   (runOps c.messages [] (streamOpsFailed received)).2)

/-- The parts of a non-streaming response `ask` reads:
`response.choices[0].message.content` and
`response.choices[0].finish_reason`. -/
structure NonStreamChoice where
  content : String
  finish_reason : String
deriving DecidableEq, Repr

/-- The non-streaming branch of `ask`: if
`finish_reason` differs from `stop` it raises an `Exception` whose text is
`Unexpected finish reason: ` followed by the reason, before yielding
anything and before touching `self.messages`; otherwise it yields the final
content as one fragment and extends `self.messages` with the pair. -/
def Conversation.askNoStream (c : Conversation) (content : String)
    (resp : NonStreamChoice) : Except String (Conversation × List String) :=
  let message := userMessage content
  if resp.finish_reason ≠ "stop" then
    Except.error ("Unexpected finish reason: " ++ resp.finish_reason)
  else
    Except.ok
      ({ c with messages :=
          c.messages ++
            [message, { role := Role.assistant, content := resp.content }] },
       [resp.content])

/-- `conversation = Conversation(model=model)` in the `reset` branch of both
`main` loops (`stream` takes its default `True`). -/
def resetConversation (model : String) : Conversation :=
  Conversation.init true model

/-- The history consists of complete `(user, assistant)` pairs in order. -/
def pairedHistory : List Message → Bool
  | [] => true
  | [_] => false
  | m1 :: m2 :: rest =>
      match m1.role, m2.role with
      | Role.user, Role.assistant => pairedHistory rest
      | _, _ => false

/-- What one iteration of a `main` loop does with the query string it has
just acquired, as decided by the `if`/`elif` chain: continue, break,
rebuild the conversation, or call `conversation.ask` on a string. -/
inductive LoopAction where
  | skip
  | exitLoop
  | reset
  | ask (q : String)
deriving DecidableEq, Repr

/-- The query-handling chain of `main` in `src/openai-cli.py`
(lines 134-148), one loop iteration after a query has been acquired.
`capture` is the string the `get_multi_input()` call of the multi branch
returns: that branch (lines 144-145) replaces `query` by the capture and
falls through to `conversation.ask(query)` (line 148) with no further
dispatch, so the captured string is asked even when it equals a reserved
token. -/
def stepDashed (query capture : String) : LoopAction :=
  if query = "" then LoopAction.skip
  else if query = "exit" ∨ query = "exit()" then LoopAction.exitLoop
  else if query = "reset" ∨ query = "reset()" then LoopAction.reset
  else if query = "multi" ∨ query = "multi()" ∨ query = "m" then
    LoopAction.ask capture
  else LoopAction.ask query

/-- The `if`/`elif` chain of `main` in `src/openai_cli.py` (lines 186-194):
empty query continues; `exit`/`exit()` break; `reset`/`reset()` rebuild the
conversation and continue; there is no `multi` branch, so every other query
falls through to `conversation.ask`. -/
def dispatchUnderscore (query : String) : LoopAction :=
  if query = "" then LoopAction.skip
  else if query = "exit" ∨ query = "exit()" then LoopAction.exitLoop
  else if query = "reset" ∨ query = "reset()" then LoopAction.reset
  else LoopAction.ask query

/-- The reserved control tokens named by the spec. -/
def reservedTokens : List String :=
  ["exit", "exit()", "reset", "reset()", "multi", "multi()", "m"]

/-- Terminal colours used by the rendering loop of `src/openai_cli.py`. -/
inductive Color where
  | white
  | magenta
deriving DecidableEq, Repr

/-- `msg.startswith` at a one-character argument: the string begins with `c`. -/
def strStartsWithChar (s : String) (c : Char) : Bool :=
  s.data.head? == some c

/-- `msg.endswith` at a one-character argument: the string ends with `c`. -/
def strEndsWithChar (s : String) (c : Char) : Bool :=
  s.data.getLast? == some c

/-- One iteration of the fragment-rendering loop in the `main` of
`src/openai_cli.py` (lines 196-211). State is `(color, newline)`; the
fragment is printed with the value `color` holds after both updates:
first, if `newline` holds and the fragment starts with the hash character,
`color` becomes `MAGENTA`; then, if the fragment ends with a newline
character, `newline` and `color` become `True` and `WHITE`, else `newline`
becomes `False`. -/
def renderStep (st : Color × Bool) (msg : String) : (Color × Bool) × Color :=
  let color := if st.2 && strStartsWithChar msg '#' then Color.magenta else st.1
  if strEndsWithChar msg '\n' then ((Color.white, true), Color.white)
  else ((color, false), color)

/-- Fold `renderStep` over a fragment list from the initial state
`color = WHITE`, `newline = True`, returning the final state and each
fragment paired with the colour it was printed in. -/
def renderFrom (st : Color × Bool) : List String → (Color × Bool) × List (String × Color)
  | [] => (st, [])
  | msg :: rest =>
      let s := renderStep st msg
      let r := renderFrom s.1 rest
      (r.1, (msg, s.2) :: r.2)

/-- The full rendering of a fragment sequence by `main`. -/
def renderFragments (msgs : List String) : List (String × Color) :=
  (renderFrom (Color.white, true) msgs).2

/-- Observable filesystem/subprocess events of `open_editor_with_content`
in `src/openai_cli.py`. -/
inductive FsEvent where
  | createTemp (path content : String)
  | runEditor (editor path : String)
  | readFile (path : String)
  | unlink (path : String)
deriving DecidableEq, Repr

/-- Environment of one `open_editor_with_content` call: the value the
environment variable `EDITOR` has (if any), the temporary file path chosen
by `tempfile.NamedTemporaryFile`, the exit code of the editor subprocess,
and the content the file holds when the editor exits. -/
structure EditorEnv where
  editorVar : Option String
  tmpPath : String
  exitCode : Nat
  finalContent : String
deriving DecidableEq, Repr

/-- `os.environ.get` of `EDITOR` with fallback `vim`. -/
def EditorEnv.editor (e : EditorEnv) : String :=
  e.editorVar.getD "vim"

/-- `content.rstrip` at the newline character: drop every trailing newline. -/
def rstripNewlines (s : String) : String :=
  String.mk ((s.data.reverse.dropWhile (fun c => c = '\n')).reverse)

/-- `open_editor_with_content(initial_content)` in `src/openai_cli.py`
(lines 87-112): write `initial_content` to a temporary file, run
`subprocess.run([editor, tmp_path], check=True)` (a non-zero exit raises
`CalledProcessError`), on success read the file back and return it with
trailing newlines stripped; the `finally` block runs `os.unlink(tmp_path)`
on both the success path and the error path before control leaves the
function. Returns the result and the trace of events, in order. -/
def open_editor_with_content (env : EditorEnv) (initial_content : String) :
    Except String String × List FsEvent :=
  let setup :=
    [FsEvent.createTemp env.tmpPath initial_content,
     FsEvent.runEditor env.editor env.tmpPath]
  if env.exitCode ≠ 0 then
    (Except.error ("CalledProcessError: " ++ env.editor), setup ++ [FsEvent.unlink env.tmpPath])
  else
    (Except.ok (rstripNewlines env.finalContent),
     setup ++ [FsEvent.readFile env.tmpPath, FsEvent.unlink env.tmpPath])

/-- A Python import statement binding names in module scope. -/
inductive PyImport where
  | importModule (name : String)
  | fromImport (module : String) (names : List String)
deriving DecidableEq, Repr

/-- The import statements of `src/openai-cli.py` (lines 3-8):
`import argparse`, `import os`, `import readline`,
`from dotenv import load_dotenv`, `from openai import OpenAI`. -/
def dashedImports : List PyImport :=
  [PyImport.importModule "argparse",
   PyImport.importModule "os",
   PyImport.importModule "readline",
   PyImport.fromImport "dotenv" ["load_dotenv"],
   PyImport.fromImport "openai" ["OpenAI"]]

/-- Names an import list binds: `import m` binds `m`; `from m import a, b`
binds `a` and `b` only. -/
def boundNames (imps : List PyImport) : List String :=
  (imps.map (fun i =>
    match i with
    | PyImport.importModule n => [n]
    | PyImport.fromImport _ ns => ns)).flatten

/-- The proxy branch of `main` in `src/openai-cli.py` (lines 109-110):
when `args.proxy` is set it evaluates `openai.api_base = args.proxy`, which
first resolves the name `openai` in module scope; an unbound name raises
`NameError` and the assignment never happens. Returns the base-URL
override applied, or the error. -/
def applyProxyDashed (proxy : Option String) : Except String (Option String) :=
  match proxy with
  | none => Except.ok none
  | some p =>
      if "openai" ∈ boundNames dashedImports then Except.ok (some p)
      else Except.error "NameError: name openai is not defined"

/-! ### Helper lemmas -/

theorem joinFrags_append (a b : List String) :
    joinFrags (a ++ b) = joinFrags a ++ joinFrags b := by
  induction a with
  | nil => simp [joinFrags]
  | cons s t ih => simp [joinFrags, ih, String.append_assoc]

theorem streamOps_eq (user : Message) :
    ∀ (events : List (Option String)) (collected : List String),
      streamOps user collected events =
        (events.filterMap id).map AskOp.yieldFrag ++
          [AskOp.appendPair user
            { role := Role.assistant,
              content := joinFrags (collected ++ events.filterMap id) }]
  | [], collected => by simp [streamOps]
  | none :: rest, collected => by
      simpa [streamOps] using streamOps_eq user rest collected
  | some s :: rest, collected => by
      simp [streamOps, streamOps_eq user rest (collected ++ [s]),
        List.append_assoc]

theorem streamOpsFailed_eq :
    ∀ received : List (Option String),
      streamOpsFailed received = (received.filterMap id).map AskOp.yieldFrag
  | [] => by simp [streamOpsFailed]
  | none :: rest => by simpa [streamOpsFailed] using streamOpsFailed_eq rest
  | some s :: rest => by simp [streamOpsFailed, streamOpsFailed_eq rest]

theorem runOps_yieldFrags (msgs : List Message) :
    ∀ (frags ys : List String) (rest : List AskOp),
      runOps msgs ys (frags.map AskOp.yieldFrag ++ rest) =
        runOps msgs (ys ++ frags) rest
  | [], ys, rest => by simp [runOps]
  | f :: t, ys, rest => by
      simp [runOps, runOps_yieldFrags msgs t (ys ++ [f]) rest]

theorem runOps_appendPair (msgs : List Message) (ys : List String)
    (u a : Message) :
    runOps msgs ys [AskOp.appendPair u a] = (msgs ++ [u, a], ys) := rfl

theorem askStream_eq (c : Conversation) (u : String)
    (events : List (Option String)) :
    c.askStream u events =
      ({ c with messages := c.messages ++
          [userMessage u,
           { role := Role.assistant,
             content := joinFrags (events.filterMap id) }] },
       events.filterMap id) := by
  unfold Conversation.askStream
  rw [streamOps_eq, runOps_yieldFrags, runOps_appendPair]
  simp

theorem askStreamFailed_eq (c : Conversation) (u : String)
    (received : List (Option String)) :
    c.askStreamFailed u received = (c, received.filterMap id) := by
  unfold Conversation.askStreamFailed
  rw [streamOpsFailed_eq]
  have h := runOps_yieldFrags c.messages (received.filterMap id) [] []
  rw [List.append_nil] at h
  rw [h]
  simp [runOps]

theorem pairedHistory_append :
    ∀ l : List Message, pairedHistory l = true →
      ∀ l' : List Message, pairedHistory l' = true →
        pairedHistory (l ++ l') = true
  | [], _, l', h' => by simpa
  | [m], h, _, _ => by simp [pairedHistory] at h
  | ⟨Role.user, u⟩ :: ⟨Role.assistant, a⟩ :: rest, h, l', h' =>
      pairedHistory_append rest h l' h'
  | ⟨Role.user, u⟩ :: ⟨Role.user, a⟩ :: rest, h, _, _ => by
      simp [pairedHistory] at h
  | ⟨Role.assistant, u⟩ :: m2 :: rest, h, _, _ => by
      simp [pairedHistory] at h

theorem renderFrom_append (st : Color × Bool) :
    ∀ l1 l2 : List String,
      renderFrom st (l1 ++ l2) =
        ((renderFrom (renderFrom st l1).1 l2).1,
         (renderFrom st l1).2 ++ (renderFrom (renderFrom st l1).1 l2).2)
  | [], l2 => by simp [renderFrom]
  | msg :: t, l2 => by
      simp [renderFrom, renderFrom_append (renderStep st msg).1 t l2]

theorem head_dropWhile_newline (l : List Char) :
    (l.dropWhile (fun c => c = '\n')).head? ≠ some '\n' := by
  induction l with
  | nil => simp
  | cons a t ih =>
      by_cases h : a = '\n'
      · simpa [List.dropWhile, h] using ih
      · simp [List.dropWhile, h]

theorem rstripNewlines_getLast (s : String) :
    (rstripNewlines s).data.getLast? ≠ some '\n' := by
  unfold rstripNewlines
  rw [String.data]
  rw [List.getLast?_reverse]
  exact head_dropWhile_newline s.data.reverse

theorem rstripNewlines_reconstruct (s : String) :
    ∃ k : Nat,
      s.data = (rstripNewlines s).data ++ List.replicate k '\n' := by
  refine ⟨(s.data.reverse.takeWhile (fun c => c = '\n')).length, ?_⟩
  unfold rstripNewlines
  rw [String.data]
  have hsplit :=
    List.takeWhile_append_dropWhile (fun c => c = '\n') s.data.reverse
  have htake :
      s.data.reverse.takeWhile (fun c => c = '\n') =
        List.replicate (s.data.reverse.takeWhile (fun c => c = '\n')).length
          '\n' := by
    apply List.eq_replicate_of_mem
    intro b hb
    have := List.mem_takeWhile_imp hb
    simpa using this
  calc s.data = s.data.reverse.reverse := by simp
    _ = (s.data.reverse.takeWhile (fun c => c = '\n') ++
          s.data.reverse.dropWhile (fun c => c = '\n')).reverse := by
          rw [hsplit]
    _ = (s.data.reverse.dropWhile (fun c => c = '\n')).reverse ++
          (s.data.reverse.takeWhile (fun c => c = '\n')).reverse := by
          rw [List.reverse_append]
    _ = (s.data.reverse.dropWhile (fun c => c = '\n')).reverse ++
          List.replicate (s.data.reverse.takeWhile (fun c => c = '\n')).length
            '\n' := by
          rw [htake, List.reverse_replicate]
          simp

/-! ### Claims -/

/-- Claim C1 (corrected): for every streaming exchange of
`Conversation.ask`, the assembled assistant message content appended to
the session equals the concatenation, in arrival order, of exactly the
fragments yielded to the caller; a fragment is yielded if and only if the
event carries a present (non-`None`) delta text — an absent delta is
skipped, while a present but empty delta text is yielded as an empty
fragment (leaving the concatenation unchanged). -/
theorem claim_C1 (c : Conversation) (u : String)
    (events : List (Option String)) :
    (c.askStream u events).2 = events.filterMap id ∧
    (c.askStream u events).1.messages =
      c.messages ++
        [userMessage u,
         { role := Role.assistant,
           content := joinFrags ((c.askStream u events).2) }] := by
  rw [askStream_eq]
  exact ⟨rfl, rfl⟩

/-- Claim C1 counterexample: an event whose delta text is present but
empty is yielded as an empty fragment rather than skipped — with deltas
`[some "a", some "", some "b"]` the caller receives `["a", "", "b"]`,
not `["a", "b"]`. -/
theorem claim_C1_counterexample :
    ((Conversation.init true "").askStream "hi"
        [some "a", some "", some "b"]).2 = ["a", "", "b"] ∧
    ((Conversation.init true "").askStream "hi"
        [some "a", some "", some "b"]).2 ≠ ["a", "b"] := by
  exact ⟨by decide, by decide⟩

/-- Claim C2 (confirmed): a successful streaming exchange leaves the
session equal to the prior history with exactly the user message and the
assembled assistant message appended, in that order; the append is the
last operation of the generator trace, after every yield; and an exchange
that fails (or is abandoned) mid-stream leaves the conversation unchanged. -/
theorem claim_C2 (c : Conversation) (u : String)
    (events received : List (Option String)) :
    (c.askStream u events).1.messages =
      c.messages ++
        [userMessage u,
         { role := Role.assistant,
           content := joinFrags (events.filterMap id) }] ∧
    streamOps (userMessage u) [] events =
      (events.filterMap id).map AskOp.yieldFrag ++
        [AskOp.appendPair (userMessage u)
          { role := Role.assistant,
            content := joinFrags (events.filterMap id) }] ∧
    (c.askStreamFailed u received).1 = c := by
  refine ⟨?_, ?_, ?_⟩
  · rw [askStream_eq]
  · simpa using streamOps_eq (userMessage u) events []
  · rw [askStreamFailed_eq]

/-- Claim C3 (corrected): in `src/openai-cli.py` the tokens `exit`,
`exit()`, `reset`, `reset()` are handled by command branches and never
reach `conversation.ask`, while a query equal to `multi`, `multi()` or `m`
is not itself forwarded but is replaced by a fresh multi-line capture that
is passed to `conversation.ask` without re-dispatch — so a reserved token
entered in that capture is forwarded as conversation content; in
`src/openai_cli.py` only `exit`, `exit()`, `reset`, `reset()` are commands,
and the tokens `multi`, `multi()`, `m` themselves fall through to
`conversation.ask` as ordinary conversation content. -/
theorem claim_C3 :
    (∀ q ∈ (["exit", "exit()", "reset", "reset()"] : List String),
      ∀ capture s : String, stepDashed q capture ≠ LoopAction.ask s) ∧
    (∀ q ∈ (["multi", "multi()", "m"] : List String),
      ∀ capture : String, stepDashed q capture = LoopAction.ask capture) ∧
    dispatchUnderscore "exit" = LoopAction.exitLoop ∧
    dispatchUnderscore "exit()" = LoopAction.exitLoop ∧
    dispatchUnderscore "reset" = LoopAction.reset ∧
    dispatchUnderscore "reset()" = LoopAction.reset ∧
    dispatchUnderscore "multi" = LoopAction.ask "multi" ∧
    dispatchUnderscore "multi()" = LoopAction.ask "multi()" ∧
    dispatchUnderscore "m" = LoopAction.ask "m" := by
  refine ⟨?_, ?_, by decide, by decide, by decide, by decide,
    by decide, by decide, by decide⟩
  · intro q hq capture s
    fin_cases hq <;> simp [stepDashed]
  · intro q hq capture
    fin_cases hq <;> simp [stepDashed]

/-- Claim C3 witness: the amended behaviour instantiated at the command
token `exit` and at the multi-trigger token `multi` of the dashed file. -/
theorem claim_C3_witness :
    ("exit" ∈ (["exit", "exit()", "reset", "reset()"] : List String) ∧
      stepDashed "exit" "anything" ≠ LoopAction.ask "x") ∧
    ("multi" ∈ (["multi", "multi()", "m"] : List String) ∧
      stepDashed "multi" "hello" = LoopAction.ask "hello") :=
  ⟨⟨by decide, claim_C3.1 "exit" (by decide) "anything" "x"⟩,
   ⟨by decide, claim_C3.2.1 "multi" (by decide) "hello"⟩⟩

/-- Claim C3 counterexample: the reserved token `m`, entered at the REPL
of `src/openai_cli.py`, is dispatched to `conversation.ask` with `m`
itself as the conversation content; and in `src/openai-cli.py` the
reserved token `exit`, entered in the multi-line capture triggered by the
query `multi`, is forwarded to `conversation.ask` as conversation
content. -/
theorem claim_C3_counterexample :
    ("m" ∈ reservedTokens ∧ dispatchUnderscore "m" = LoopAction.ask "m") ∧
    ("exit" ∈ reservedTokens ∧
      stepDashed "multi" "exit" = LoopAction.ask "exit") :=
  ⟨⟨by decide, by decide⟩, ⟨by decide, by decide⟩⟩

/-- Claim C4 (confirmed): a non-streaming exchange whose finish reason
differs from `stop` makes `ask` raise an error naming the anomalous
reason, with nothing yielded and nothing appended to the session; with
finish reason `stop` the final content is yielded as a single fragment,
the pair is appended, and no error is raised. -/
theorem claim_C4 (c : Conversation) (u : String) (resp : NonStreamChoice) :
    (resp.finish_reason ≠ "stop" →
      c.askNoStream u resp =
        Except.error ("Unexpected finish reason: " ++ resp.finish_reason)) ∧
    (resp.finish_reason = "stop" →
      c.askNoStream u resp =
        Except.ok
          ({ c with messages := c.messages ++
              [userMessage u,
               { role := Role.assistant, content := resp.content }] },
           [resp.content])) := by
  constructor
  · intro h
    simp [Conversation.askNoStream, h]
  · intro h
    simp [Conversation.askNoStream, h]

/-- Claim C4 witness: the theorem instantiated at a `length` response
(error naming the reason) and at a `stop` response (single fragment,
pair appended). -/
theorem claim_C4_witness :
    (("length" : String) ≠ "stop" ∧
      (Conversation.init false "").askNoStream "q" ⟨"partial", "length"⟩ =
        Except.error ("Unexpected finish reason: " ++ "length")) ∧
    (Conversation.init false "").askNoStream "q" ⟨"Hi", "stop"⟩ =
      Except.ok
        ({ Conversation.init false "" with
            messages := (Conversation.init false "").messages ++
              [userMessage "q",
               { role := Role.assistant, content := "Hi" }] },
         ["Hi"]) :=
  ⟨⟨by decide,
    (claim_C4 (Conversation.init false "") "q" ⟨"partial", "length"⟩).1
      (by decide)⟩,
   (claim_C4 (Conversation.init false "") "q" ⟨"Hi", "stop"⟩).2 rfl⟩

/-- Claim C5 (confirmed): the reset command replaces the conversation by
one with an empty history, so the request payload of the next exchange is
exactly the one new user message; building a payload is a pure function
of the stored history (`self.messages + [message]` builds a fresh list)
and leaves the stored history unchanged. -/
theorem claim_C5 (model u : String) (c : Conversation) :
    (resetConversation model).messages = [] ∧
    (resetConversation model).requestMessages u = [userMessage u] ∧
    c.requestMessages u = c.messages ++ [userMessage u] ∧
    (c.buildRequest u).messages = c.requestMessages u :=
  ⟨rfl, rfl, rfl, rfl⟩

/-- Claim C6 (confirmed): the session history invariant — the message
list always consists of complete `(user, assistant)` pairs in order — is
preserved by a completed `ask`, by a failed or abandoned (interrupted)
`ask` (which moreover leaves the history untouched, so partial assistant
content is never persisted), and by reset. -/
theorem claim_C6 (c : Conversation) (u m : String)
    (events received : List (Option String))
    (h : pairedHistory c.messages = true) :
    pairedHistory ((c.askStream u events).1.messages) = true ∧
    pairedHistory ((c.askStreamFailed u received).1.messages) = true ∧
    (c.askStreamFailed u received).1.messages = c.messages ∧
    pairedHistory (resetConversation m).messages = true := by
  have hfail : (c.askStreamFailed u received).1 = c := by
    rw [askStreamFailed_eq]
  refine ⟨?_, ?_, ?_, rfl⟩
  · rw [askStream_eq]
    exact pairedHistory_append c.messages h _ rfl
  · rw [hfail]
    exact h
  · rw [hfail]

/-- Claim C6 witness: the invariant, instantiated at an empty history and
a two-fragment exchange. -/
theorem claim_C6_witness :
    pairedHistory (Conversation.init true "").messages = true ∧
    pairedHistory
      (((Conversation.init true "").askStream "hi"
          [some "Hi", some "!"]).1.messages) = true :=
  ⟨rfl,
   (claim_C6 (Conversation.init true "") "hi" "gpt-4o"
      [some "Hi", some "!"] [] rfl).1⟩

/-- Claim C7 (confirmed): `open_editor_with_content` first creates the
temporary file seeded with the given content, then runs the editor on it;
the last event on every path is the removal of the temporary file; a zero
editor exit returns the final file content with trailing newlines
stripped, and a non-zero exit is propagated as an error; the stripped
result has no trailing newline and differs from the file content only by
trailing newlines. -/
theorem claim_C7 (env : EditorEnv) (content : String) :
    (open_editor_with_content env content).2.head? =
      some (FsEvent.createTemp env.tmpPath content) ∧
    FsEvent.runEditor env.editor env.tmpPath ∈
      (open_editor_with_content env content).2 ∧
    (open_editor_with_content env content).2.getLast? =
      some (FsEvent.unlink env.tmpPath) ∧
    (env.exitCode = 0 →
      (open_editor_with_content env content).1 =
        Except.ok (rstripNewlines env.finalContent)) ∧
    (env.exitCode ≠ 0 →
      (open_editor_with_content env content).1 =
        Except.error ("CalledProcessError: " ++ env.editor)) ∧
    (rstripNewlines env.finalContent).data.getLast? ≠ some '\n' ∧
    (∃ k : Nat, env.finalContent.data =
      (rstripNewlines env.finalContent).data ++ List.replicate k '\n') := by
  by_cases h : env.exitCode = 0
  · refine ⟨?_, ?_, ?_, fun _ => ?_, fun hne => absurd h hne,
      rstripNewlines_getLast _, rstripNewlines_reconstruct _⟩
    all_goals simp [open_editor_with_content, h]
  · refine ⟨?_, ?_, ?_, fun he => absurd he h, fun _ => ?_,
      rstripNewlines_getLast _, rstripNewlines_reconstruct _⟩
    all_goals simp [open_editor_with_content, h]

/-- Claim C7 witness: the theorem instantiated at a zero-exit editor run
and at a failing (exit code 2) editor run. -/
theorem claim_C7_witness :
    ((0 : Nat) = 0 ∧
      (open_editor_with_content ⟨some "nano", "/tmp/t.md", 0, "hi\n\n"⟩
          "seed").1 = Except.ok (rstripNewlines "hi\n\n")) ∧
    ((2 : Nat) ≠ 0 ∧
      (open_editor_with_content ⟨none, "/tmp/u.md", 2, "x"⟩ "seed").1 =
        Except.error ("CalledProcessError: " ++
          EditorEnv.editor ⟨none, "/tmp/u.md", 2, "x"⟩)) :=
  ⟨⟨rfl,
    (claim_C7 ⟨some "nano", "/tmp/t.md", 0, "hi\n\n"⟩ "seed").2.2.2.1 rfl⟩,
   ⟨by decide,
    (claim_C7 ⟨none, "/tmp/u.md", 2, "x"⟩ "seed").2.2.2.2.1 (by decide)⟩⟩

/-- Claim C8 (corrected): a fragment that starts a fresh display line and
begins with the heading marker switches the style to the heading colour,
and the heading colour persists for subsequent fragments of the line; but
the reversion to the default body colour happens before the line-ending
fragment is printed, so the fragment that ends the line is itself rendered
in the default body colour, not in the heading style. -/
theorem claim_C8 (pre : List String) (f : String) :
    renderFragments (pre ++ [f]) =
      renderFragments pre ++
        [(f, (renderStep (renderFrom (Color.white, true) pre).1 f).2)] ∧
    (strEndsWithChar f '\n' = true →
      (renderStep (renderFrom (Color.white, true) pre).1 f).2 =
        Color.white) ∧
    ((renderFrom (Color.white, true) pre).1.2 = true →
      strStartsWithChar f '#' = true → strEndsWithChar f '\n' = false →
      (renderStep (renderFrom (Color.white, true) pre).1 f).2 =
        Color.magenta) ∧
    (∀ st : Color × Bool, st.1 = Color.magenta →
      strEndsWithChar f '\n' = false → (renderStep st f).2 = Color.magenta) := by
  refine ⟨?_, ?_, ?_, ?_⟩
  · rw [renderFragments, renderFrom_append]
    simp [renderFragments, renderFrom]
  · intro h
    simp [renderStep, h]
  · intro h1 h2 h3
    simp [renderStep, h1, h2, h3]
  · intro st h1 h2
    cases hb : (st.2 && strStartsWithChar f '#') <;>
      simp [renderStep, h2, hb, h1]

/-- Claim C8 witness: the amended behaviour instantiated at the fragment
sequence `["#A", "B\n"]` and at a heading fragment opening a line. -/
theorem claim_C8_witness :
    (strEndsWithChar "B\n" '\n' = true ∧
      (renderStep (renderFrom (Color.white, true) ["#A"]).1 "B\n").2 =
        Color.white) ∧
    ((renderFrom (Color.white, true) ([] : List String)).1.2 = true ∧
      strStartsWithChar "#A" '#' = true ∧
      strEndsWithChar "#A" '\n' = false ∧
      (renderStep (renderFrom (Color.white, true) ([] : List String)).1
          "#A").2 = Color.magenta) :=
  ⟨⟨by decide, (claim_C8 ["#A"] "B\n").2.1 (by decide)⟩,
   ⟨rfl, by decide, by decide,
    (claim_C8 [] "#A").2.2.1 rfl (by decide) (by decide)⟩⟩

/-- Claim C8 counterexample: rendering the fragments `["#A", "B\n"]`, the
line-ending fragment `"B\n"` is printed in the default white colour, not
in the heading colour the claim asserts. -/
theorem claim_C8_counterexample :
    renderFragments ["#A", "B\n"] =
      [("#A", Color.magenta), ("B\n", Color.white)] ∧
    renderFragments ["#A", "B\n"] ≠
      [("#A", Color.magenta), ("B\n", Color.magenta)] :=
  ⟨by decide, by decide⟩

/-- Claim C9 (confirmed): `src/openai-cli.py` never binds the name
`openai` (it only imports `OpenAI` from the `openai` module), so whenever
the proxy flag is supplied, evaluating `openai.api_base` raises a
NameError and the base-URL override is never applied. -/
theorem claim_C9 (p : String) :
    "openai" ∉ boundNames dashedImports ∧
    applyProxyDashed (some p) =
      Except.error "NameError: name openai is not defined" ∧
    ∀ base : Option String, applyProxyDashed (some p) ≠ Except.ok base := by
  have hmem : "openai" ∉ boundNames dashedImports := by decide
  refine ⟨hmem, ?_, ?_⟩
  · simp [applyProxyDashed, hmem]
  · intro base
    simp [applyProxyDashed, hmem]

/-- Claim C10 (confirmed): a `Conversation` constructed with an empty
model string sends the model identifier `gpt-4o` in its requests; one
constructed with a non-empty model string sends that string verbatim; and
an exchange never changes the stored model, so this holds for every
request of the instance. -/
theorem claim_C10 (stream : Bool) (u : String) :
    ((Conversation.init stream "").buildRequest u).model = "gpt-4o" ∧
    (∀ m : String, m ≠ "" →
      ((Conversation.init stream m).buildRequest u).model = m) ∧
    (∀ (c : Conversation) (events : List (Option String)),
      ((c.askStream u events).1).model = c.model) := by
  refine ⟨rfl, ?_, ?_⟩
  · intro m hm
    simp [Conversation.init, Conversation.buildRequest, hm]
  · intro c events
    rw [askStream_eq]

/-- Claim C10 witness: the theorem instantiated at the model string
`gpt-3.5-turbo` and at the empty model string. -/
theorem claim_C10_witness :
    ("gpt-3.5-turbo" : String) ≠ "" ∧
    ((Conversation.init true "gpt-3.5-turbo").buildRequest "hi").model =
      "gpt-3.5-turbo" ∧
    ((Conversation.init true "").buildRequest "hi").model = "gpt-4o" :=
  ⟨by decide,
   (claim_C10 true "hi").2.1 "gpt-3.5-turbo" (by decide),
   (claim_C10 true "hi").1⟩

end OpenAICLI
